import Mathlib

/-!
Shallow embedding of the Twitch PubSub connection manager of this repository
(`src/Archipelago/_pubsub.py` together with the main-thread dispatch queue of
`src/Archipelago/_utilities.py`).

Times are modelled as rationals (`time.time()` values), `random.random()` draws
are explicit rational inputs in `[0, 1)`, socket handles are naturals, and the
outcome of `websocket.connect` is an explicit `Except` input (exception or a
fresh handle).  The registry `_topic_websockets` is an association list keyed
by topic, and the polling thread is tracked by a boolean flag.
-/

namespace PubSub

/-- The states enumeration of `_topic_websocket.states`. -/
inductive WSState where
  | disconnected
  | awaitingPong
  | listenSent
  | connected
deriving DecidableEq, Repr

/-- A socket-lifecycle event, used to track which handles are open. -/
inductive SockEv where
  | opened (h : Nat)
  | closed (h : Nat)
deriving DecidableEq, Repr

/-- The mutable fields of a `_topic_websocket` object.  `timeout = none`
models `float('inf')`. -/
structure TW where
  topic : String
  sock : Option Nat
  state : WSState
  reconnectionAttempts : Nat
  nextReconnect : Rat
  timeout : Option Rat
  nextPing : Rat
deriving DecidableEq, Repr

/-- `self.connected` of the websocket library: a socket is held. -/
def TW.connected (w : TW) : Bool := w.sock.isSome

/-- The environment inputs a single library call can consume: the current
wall-clock time, two `random.random()` draws, and the result of the next
`self.connect` call (a fresh handle, or the exception it raised). -/
structure Env where
  now : Rat
  rand : Rat
  rand2 : Rat
  connectResult : Except String Nat

/-- `current_time > self.timeout`, where `none` stands for `float('inf')`. -/
def timeExceeded (now : Rat) : Option Rat → Bool
  | none => false
  | some tmo => decide (tmo < now)

/-- `self.close()`: drop the held socket and record the close event. -/
def closeSock (w : TW) : TW × List SockEv :=
  match w.sock with
  | some h => ({ w with sock := none }, [SockEv.closed h])
  | none => (w, [])

/-- `_topic_websocket.send_ping`: send a PING and set `timeout = now + 10`. -/
def sendPing (w : TW) (now : Rat) : TW :=
  { w with timeout := some (now + 10) }

/-- `_topic_websocket.send_listen`: send the LISTEN request, move to the
`listen_sent` state and set `timeout = now + 10`. -/
def sendListen (w : TW) (now : Rat) : TW :=
  { w with state := WSState.listenSent, timeout := some (now + 10) }

/-- `_topic_websocket.reconnect`: set state to disconnected, close any held
socket, then attempt `self.connect`.  On failure, schedule the next attempt
after `random.random() + 2 ** reconnection_attempts` seconds and bump the
counter (capped at 8).  On success, reset the counter, send the initial PING
and move to `awaiting_pong`. -/
def reconnect (w : TW) (e : Env) : TW × List SockEv :=
  let w1 : TW := { w with state := WSState.disconnected }
  let c := if w1.connected then closeSock w1 else (w1, [])
  let w2 := c.1
  match e.connectResult with
  | Except.error _ =>
      let w3 : TW :=
        { w2 with nextReconnect := e.now + (e.rand + 2 ^ w2.reconnectionAttempts) }
      let w4 : TW :=
        { w3 with reconnectionAttempts :=
            if w3.reconnectionAttempts < 8 then w3.reconnectionAttempts + 1
            else w3.reconnectionAttempts }
      (w4, c.2)
  | Except.ok h =>
      ({ w2 with sock := some h, reconnectionAttempts := 0, nextReconnect := 0,
                 timeout := some (e.now + 10), state := WSState.awaitingPong },
       c.2 ++ [SockEv.opened h])

/-- Which branch of `poll_status` fired. -/
inductive PollAct where
  | reconnectDue
  | timedOutReconnect
  | pingSent
  | idle
deriving DecidableEq, Repr

/-- `_topic_websocket.poll_status`: the three-way `if/elif/elif` chain over
the reconnect, timeout and ping timers. -/
def pollStatus (w : TW) (e : Env) : TW × List SockEv × PollAct :=
  if w.connected = false ∧ w.nextReconnect < e.now then
    let r := reconnect w e
    (r.1, r.2, PollAct.reconnectDue)
  else if timeExceeded e.now w.timeout then
    let r := reconnect w e
    (r.1, r.2, PollAct.timedOutReconnect)
  else if w.state = WSState.connected ∧ w.nextPing < e.now then
    (sendPing w e.now, [], PollAct.pingSent)
  else (w, [], PollAct.idle)

/-- `_topic_websocket.__init__`: a fresh topic websocket, with
`next_reconnect = time.time() + random.random()` and the class defaults for
every other field. -/
def newTW (t : String) (e : Env) : TW :=
  { topic := t, sock := none, state := WSState.disconnected,
    reconnectionAttempts := 0, nextReconnect := e.now + e.rand,
    timeout := some 0, nextPing := 0 }

/-- The module-level state of `_pubsub` (plus the authorization token it
reads, and the main-thread dispatch queue the dispatch lambdas append to).
Queue entries record the `(self.topic, message_data)` pair a dispatched
callback would deliver to `MessageCallback`. -/
structure GState where
  token : Option String
  sockets : List (String × TW)
  threadRunning : Bool
  queue : List (String × String)
deriving DecidableEq, Repr

/-- Dictionary lookup in `_topic_websockets`. -/
def lookupTopic (t : String) : List (String × TW) → Option TW
  | [] => none
  | p :: rest => if p.1 = t then some p.2 else lookupTopic t rest

/-- Dictionary in-place value update at a key (Python methods mutate the
websocket object stored in the dictionary). -/
def updateTopic (l : List (String × TW)) (t : String) (w : TW) : List (String × TW) :=
  l.map (fun p => if p.1 = t then (t, w) else p)

/-- `del _topic_websockets[topic]`. -/
def eraseTopic (l : List (String × TW)) (t : String) : List (String × TW) :=
  l.filter (fun p => decide (¬ p.1 = t))

/-- How many registry entries carry a given key. -/
def countKey (t : String) (l : List (String × TW)) : Nat :=
  (l.filter (fun p => decide (p.1 = t))).length

/-- `OpenTopic`: nothing to do without a token, or when the topic is already
registered; otherwise insert a fresh websocket and start the polling thread
if this is the first registered topic. -/
def OpenTopic (g : GState) (t : String) (e : Env) : GState :=
  match g.token with
  | none => g
  | some _ =>
    if (lookupTopic t g.sockets).isSome then g
    else
      let sockets1 := g.sockets ++ [(t, newTW t e)]
      { g with sockets := sockets1,
               threadRunning := if sockets1.length = 1 then true else g.threadRunning }

/-- `CloseTopic`: nothing to do when the topic has no websocket; otherwise
shut the websocket down (closing its socket), remove it, and join the polling
thread when no topics remain.  The second component is the shut-down
websocket object (if any). -/
def CloseTopic (g : GState) (t : String) : GState × Option TW :=
  match lookupTopic t g.sockets with
  | none => (g, none)
  | some w =>
    let sockets1 := eraseTopic g.sockets t
    ({ g with sockets := sockets1,
              threadRunning := if sockets1.length = 0 then false else g.threadRunning },
     some { w with sock := none })

/-- A frame handed to `receive_message`, after JSON decoding has been
attempted: `none` is a frame whose body failed `json.loads`. -/
structure PubMsg where
  type : Option String
  error : Option String
  data : Option String
deriving DecidableEq, Repr

/-- What `self.recv()` produced inside `receive_message`: the immediate
timeout, some other receive exception, or a frame. -/
inductive RecvInput where
  | timeoutExc
  | otherExc
  | frame (parsed : Option PubMsg)
deriving DecidableEq, Repr

/-- The return point `receive_message` exited through. -/
inductive RecvOutcome where
  | noSocket
  | timedOut
  | recvErrorReconnect
  | invalidJSON
  | missingType
  | pong
  | reconnectMsg
  | responseOk
  | responseBadAuth
  | responseServerErr
  | responseOtherErr
  | noData
  | dispatched
deriving DecidableEq, Repr

/-- Python's `str.upper()` on the discriminator fields, character by
character (structurally recursive so that it evaluates). -/
def upperStr (s : String) : String := ⟨s.data.map Char.toUpper⟩

/-- `_topic_websocket.receive_message` for the websocket registered at topic
`t`, threaded through the module state (it can call `CloseTopic` and append
to the main-thread queue). -/
def receiveMessage (g : GState) (t : String) (e : Env) (inp : RecvInput) :
    GState × List SockEv × RecvOutcome :=
  match lookupTopic t g.sockets with
  | none => (g, [], RecvOutcome.noSocket)
  | some w =>
    match inp with
    | RecvInput.timeoutExc => (g, [], RecvOutcome.timedOut)
    | RecvInput.otherExc =>
        let r := reconnect w e
        ({ g with sockets := updateTopic g.sockets t r.1 }, r.2,
         RecvOutcome.recvErrorReconnect)
    | RecvInput.frame none => (g, [], RecvOutcome.invalidJSON)
    | RecvInput.frame (some m) =>
        let mt := upperStr (m.type.getD "")
        if mt = "" then (g, [], RecvOutcome.missingType)
        else if mt = "PONG" then
          let w1 := if w.state = WSState.awaitingPong then sendListen w e.now
                    else { w with timeout := none }
          let w2 := { w1 with nextPing := e.now + (240 + e.rand2 * 30) }
          ({ g with sockets := updateTopic g.sockets t w2 }, [], RecvOutcome.pong)
        else if mt = "RECONNECT" then
          let r := reconnect w e
          ({ g with sockets := updateTopic g.sockets t r.1 }, r.2,
           RecvOutcome.reconnectMsg)
        else if mt = "RESPONSE" then
          let err := upperStr (m.error.getD "")
          if err = "" then
            let w1 : TW := { w with timeout := none, state := WSState.connected }
            ({ g with sockets := updateTopic g.sockets t w1 }, [],
             RecvOutcome.responseOk)
          else if err = "ERR_BADAUTH" then
            ((CloseTopic g w.topic).1, [], RecvOutcome.responseBadAuth)
          else if err = "ERR_SERVER" then
            ({ g with sockets := updateTopic g.sockets t (sendListen w e.now) }, [],
             RecvOutcome.responseServerErr)
          else ((CloseTopic g w.topic).1, [], RecvOutcome.responseOtherErr)
        else
          match m.data with
          | none => (g, [], RecvOutcome.noData)
          | some d =>
              ({ g with queue := g.queue ++ [(w.topic, d)] }, [],
               RecvOutcome.dispatched)

/-- One `topic.poll_status()` call of the poll loop, threaded through the
module state. -/
def pollStatusTopic (g : GState) (t : String) (e : Env) : GState :=
  match lookupTopic t g.sockets with
  | none => g
  | some w => { g with sockets := updateTopic g.sockets t (pollStatus w e).1 }

/-- The nondeterministic inputs of one iteration of `_poll_websockets`: which
topics `select` reported readable, and the receive input and environment for
each topic. -/
structure PollInp where
  readable : List String
  recvInput : String → RecvInput
  renv : String → Env
  penv : String → Env

/-- One iteration of the `_poll_websockets` body: `receive_message` on every
readable topic, then `poll_status` on every registered topic. -/
def pollIteration (g : GState) (inp : PollInp) : GState :=
  let g1 := inp.readable.foldl
    (fun acc t => (receiveMessage acc t (inp.renv t) (inp.recvInput t)).1) g
  (g1.sockets.map Prod.fst).foldl (fun acc t => pollStatusTopic acc t (inp.penv t)) g1

/-- `_poll_websockets`: loop while at least one websocket is registered
(fuel-indexed). -/
def pollWebsockets : Nat → (Nat → PollInp) → GState → GState
  | 0, _, g => g
  | Nat.succ fuel, inps, g =>
      if g.sockets.length ≠ 0 then pollWebsockets fuel inps (pollIteration g (inps fuel))
      else g

/-- A callback sitting in `MainThreadQueue`: it either runs normally
(yielding the observable value it delivers) or raises. -/
inductive Cb (α : Type) where
  | ok (a : α)
  | raising (a : α)
deriving DecidableEq, Repr

/-- `_tick` of `_utilities.py`: `while len(MainThreadQueue) != 0:
MainThreadQueue.popleft()()`.  `popleft` removes the entry before invoking
it; there is no exception handler, so a raising callback ends the drain with
the exception propagating and the rest of the queue left in place.  Returns
(invoked values in order, remaining queue, whether an exception escaped). -/
def tickDrain {α : Type} : List (Cb α) → List α → List α × List (Cb α) × Bool
  | [], invoked => (invoked, [], false)
  | Cb.ok a :: rest, invoked => tickDrain rest (invoked ++ [a])
  | Cb.raising _ :: rest, invoked => (invoked, rest, true)

/-- Replay socket events over the set of currently open handles. -/
def applySockEvs (s : List Nat) (evs : List SockEv) : List Nat :=
  evs.foldl
    (fun acc ev =>
      match ev with
      | SockEv.opened h => acc ++ [h]
      | SockEv.closed h => acc.erase h) s

/-- The registry operations an API consumer or the poll thread can perform
after a topic has been closed. -/
inductive Op where
  | openT (t : String) (e : Env)
  | closeT (t : String)
  | recv (t : String) (e : Env) (i : RecvInput)
  | pollT (t : String) (e : Env)

/-- Apply one registry operation to the module state. -/
def applyOp (g : GState) : Op → GState
  | Op.openT t e => OpenTopic g t e
  | Op.closeT t => (CloseTopic g t).1
  | Op.recv t e i => (receiveMessage g t e i).1
  | Op.pollT t e => pollStatusTopic g t e

/-- Whether an operation is an explicit `OpenTopic` for the given topic. -/
def opensTopic : Op → String → Bool
  | Op.openT u _, t => decide (u = t)
  | _, _ => false

/-- An environment whose connect attempt fails, with a given time and jitter
draw. -/
def failEnv (now r : Rat) : Env :=
  { now := now, rand := r, rand2 := 0, connectResult := Except.error "connect failed" }

/-- Iterate `reconnect` through `n` consecutive connect failures. -/
def failN : Nat → TW → TW
  | 0, w => w
  | Nat.succ n, w => failN n (reconnect w (failEnv 0 0)).1

/-- The registry/poll-thread invariant: the polling thread is running iff the
topic mapping is non-empty. -/
def threadInv (g : GState) : Prop := g.threadRunning = true ↔ g.sockets ≠ []

/-- An environment whose connect attempt succeeds with handle `h`. -/
def okEnv (h : Nat) : Env :=
  { now := 0, rand := 0, rand2 := 0, connectResult := Except.ok h }

/-- The delay `reconnect` schedules at the `N`-th consecutive connect failure
(counted from a websocket with `w` as its state before the first failure),
i.e. the wait imposed before attempt `N + 1`: the first `N - 1` failures are
replayed, and the `N`-th failure happens at time `now` with jitter draw `r`. -/
def delayAfterFails (N : Nat) (w : TW) (now r : Rat) : Rat :=
  (reconnect (failN (N - 1) w) (failEnv now r)).1.nextReconnect - now

/-- A router-bound payload frame of an otherwise unhandled type, carrying
`data` `d` (the shape Twitch uses for topic MESSAGE frames). -/
def msgFrame (d : String) : RecvInput :=
  RecvInput.frame (some { type := some "MESSAGE", error := none, data := some d })

/-- The LISTEN RESPONSE frame carrying the auth-rejection error. -/
def badauthMsg : PubMsg :=
  { type := some "RESPONSE", error := some "ERR_BADAUTH", data := none }

/-- A freshly created topic websocket as `poll_status` first sees it: created
at time 100 with jitter draw 1/2, so `next_reconnect = 100.5` while `timeout`
still holds its class default 0.0. -/
def freshTWC3 : TW :=
  newTW "channel-points-channel-v1"
    { now := 100, rand := 1/2, rand2 := 0, connectResult := Except.error "e" }

/-- A maintenance tick at time 100, before `next_reconnect` is reached. -/
def pollEnvC3 : Env :=
  { now := 100, rand := 0, rand2 := 0, connectResult := Except.error "refused" }

/-- A module state with no token and no registered topics. -/
def emptyGS : GState :=
  { token := none, sockets := [], threadRunning := false, queue := [] }

/-- A module state holding one registered topic websocket, for topic `a`. -/
def gsA : GState :=
  { token := some "token0", sockets := [("a", newTW "a" (failEnv 0 0))],
    threadRunning := true, queue := [] }

/-- Poll-loop inputs under which nothing is readable. -/
def inp0 : PollInp :=
  { readable := [], recvInput := fun _ => RecvInput.timeoutExc,
    renv := fun _ => failEnv 0 0, penv := fun _ => failEnv 0 0 }

/-- A connected topic websocket holding socket handle 7. -/
def twC5 : TW :=
  { topic := "t", sock := some 7, state := WSState.connected,
    reconnectionAttempts := 0, nextReconnect := 0, timeout := some 0, nextPing := 0 }

/-! ### Helper lemmas -/

theorem tickDrain_ok_append {α : Type} (l : List α) (rest : List (Cb α)) (invoked : List α) :
    tickDrain (l.map Cb.ok ++ rest) invoked = tickDrain rest (invoked ++ l) := by
  induction l generalizing invoked with
  | nil => simp
  | cons a l ih => simp [tickDrain, ih, List.append_assoc]

theorem tickDrain_all_ok {α : Type} (l : List α) :
    tickDrain (l.map Cb.ok) ([] : List α) = (l, [], false) := by
  have h := tickDrain_ok_append l [] ([] : List α)
  simpa [tickDrain] using h

theorem reconnect_fail (w : TW) (e : Env) (msg : String)
    (h : e.connectResult = Except.error msg) :
    (reconnect w e).1 =
      { w with state := WSState.disconnected, sock := none,
               nextReconnect := e.now + (e.rand + 2 ^ w.reconnectionAttempts),
               reconnectionAttempts :=
                 if w.reconnectionAttempts < 8 then w.reconnectionAttempts + 1
                 else w.reconnectionAttempts }
    ∧ (reconnect w e).2
        = (match w.sock with | some h0 => [SockEv.closed h0] | none => []) := by
  obtain ⟨tp, sk, st, ra, nr, tmo, np⟩ := w
  cases sk <;> simp [reconnect, closeSock, TW.connected, h]

theorem reconnect_ok (w : TW) (e : Env) (h : Nat)
    (hok : e.connectResult = Except.ok h) :
    (reconnect w e).1 =
      { w with state := WSState.awaitingPong, sock := some h,
               reconnectionAttempts := 0, nextReconnect := 0,
               timeout := some (e.now + 10) }
    ∧ (reconnect w e).2
        = (match w.sock with | some h0 => [SockEv.closed h0] | none => [])
          ++ [SockEv.opened h] := by
  obtain ⟨tp, sk, st, ra, nr, tmo, np⟩ := w
  cases sk <;> simp [reconnect, closeSock, TW.connected, hok]

theorem failN_attempts (n : Nat) (w : TW) (h : w.reconnectionAttempts + n ≤ 8) :
    (failN n w).reconnectionAttempts = w.reconnectionAttempts + n := by
  induction n generalizing w with
  | zero => simp [failN]
  | succ n ih =>
    have hlt : w.reconnectionAttempts < 8 := by omega
    have h1 : (reconnect w (failEnv 0 0)).1.reconnectionAttempts
        = w.reconnectionAttempts + 1 := by
      rw [(reconnect_fail w (failEnv 0 0) "connect failed" rfl).1]
      simp [hlt]
    rw [failN, ih _ (by rw [h1]; omega), h1]
    omega

theorem lookupTopic_eq_none (t : String) (l : List (String × TW))
    (h : t ∉ l.map Prod.fst) : lookupTopic t l = none := by
  induction l with
  | nil => rfl
  | cons p rest ih =>
    simp only [List.map_cons, List.mem_cons] at h
    push_neg at h
    rw [lookupTopic, if_neg (fun hh => h.1 hh.symm)]
    exact ih h.2

theorem countKey_eq_zero (t : String) (l : List (String × TW))
    (h : t ∉ l.map Prod.fst) : countKey t l = 0 := by
  induction l with
  | nil => rfl
  | cons p rest ih =>
    simp only [List.map_cons, List.mem_cons] at h
    push_neg at h
    have hd : decide (p.1 = t) = false := decide_eq_false (fun hh => h.1 hh.symm)
    simp only [countKey, List.filter_cons, hd]
    exact ih h.2

theorem countKey_eq_one (t : String) (l : List (String × TW)) (w : TW)
    (hnd : (l.map Prod.fst).Nodup) (h : lookupTopic t l = some w) :
    countKey t l = 1 := by
  induction l with
  | nil => simp [lookupTopic] at h
  | cons p rest ih =>
    simp only [List.map_cons, List.nodup_cons] at hnd
    by_cases hp : p.1 = t
    · have hz : countKey t rest = 0 :=
        countKey_eq_zero t rest (by rw [← hp]; exact hnd.1)
      have hd : decide (p.1 = t) = true := decide_eq_true hp
      simp [countKey, List.filter_cons, hd] at hz ⊢
      simpa [countKey] using hz
    · rw [lookupTopic, if_neg hp] at h
      have hd : decide (p.1 = t) = false := decide_eq_false hp
      simp only [countKey, List.filter_cons, hd]
      exact ih hnd.2 h

theorem lookupTopic_append_none (t : String) (l1 l2 : List (String × TW))
    (h1 : lookupTopic t l1 = none) (h2 : lookupTopic t l2 = none) :
    lookupTopic t (l1 ++ l2) = none := by
  induction l1 with
  | nil => simpa using h2
  | cons p rest ih =>
    by_cases hp : p.1 = t
    · rw [lookupTopic, if_pos hp] at h1
      exact absurd h1 (by simp)
    · rw [lookupTopic, if_neg hp] at h1
      rw [List.cons_append, lookupTopic, if_neg hp]
      exact ih h1

theorem eraseTopic_cons_eq (p : String × TW) (rest : List (String × TW)) (u : String)
    (hq : p.1 = u) : eraseTopic (p :: rest) u = eraseTopic rest u := by
  simp [eraseTopic, List.filter_cons, hq]

theorem eraseTopic_cons_ne (p : String × TW) (rest : List (String × TW)) (u : String)
    (hq : ¬ p.1 = u) : eraseTopic (p :: rest) u = p :: eraseTopic rest u := by
  simp [eraseTopic, List.filter_cons, hq]

theorem lookupTopic_erase_none (t u : String) (l : List (String × TW))
    (h : lookupTopic t l = none) : lookupTopic t (eraseTopic l u) = none := by
  induction l with
  | nil => rfl
  | cons p rest ih =>
    by_cases hp : p.1 = t
    · rw [lookupTopic, if_pos hp] at h
      exact absurd h (by simp)
    · rw [lookupTopic, if_neg hp] at h
      by_cases hq : p.1 = u
      · rw [eraseTopic_cons_eq p rest u hq]
        exact ih h
      · rw [eraseTopic_cons_ne p rest u hq, lookupTopic, if_neg hp]
        exact ih h

theorem lookupTopic_erase_self (t : String) (l : List (String × TW)) :
    lookupTopic t (eraseTopic l t) = none := by
  induction l with
  | nil => rfl
  | cons p rest ih =>
    by_cases hp : p.1 = t
    · rw [eraseTopic_cons_eq p rest t hp]
      exact ih
    · rw [eraseTopic_cons_ne p rest t hp, lookupTopic, if_neg hp]
      exact ih

theorem lookupTopic_update_none (t u : String) (l : List (String × TW)) (w : TW)
    (h : lookupTopic t l = none) : lookupTopic t (updateTopic l u w) = none := by
  induction l with
  | nil => rfl
  | cons p rest ih =>
    by_cases hp : p.1 = t
    · rw [lookupTopic, if_pos hp] at h
      exact absurd h (by simp)
    · rw [lookupTopic, if_neg hp] at h
      simp only [updateTopic, List.map_cons]
      by_cases hq : p.1 = u
      · have hut : ¬ u = t := fun hh => hp (hq.trans hh)
        rw [if_pos hq, lookupTopic, if_neg hut]
        exact ih h
      · rw [if_neg hq, lookupTopic, if_neg hp]
        exact ih h

theorem lookupTopic_close_none (t u : String) (g : GState)
    (h : lookupTopic t g.sockets = none) :
    lookupTopic t ((CloseTopic g u).1).sockets = none := by
  unfold CloseTopic
  cases hlk : lookupTopic u g.sockets with
  | none => exact h
  | some w => exact lookupTopic_erase_none t u g.sockets h

theorem absent_after_op (g : GState) (t : String) (op : Op)
    (h : lookupTopic t g.sockets = none) (hop : opensTopic op t = false) :
    lookupTopic t (applyOp g op).sockets = none := by
  cases op with
  | openT u e =>
    have hut : ¬ u = t := by
      simpa [opensTopic] using hop
    show lookupTopic t (OpenTopic g u e).sockets = none
    unfold OpenTopic
    cases g.token with
    | none => exact h
    | some tok =>
      by_cases hex : (lookupTopic u g.sockets).isSome
      · rw [if_pos hex]
        exact h
      · rw [if_neg hex]
        exact lookupTopic_append_none t _ _ h (by simp [lookupTopic, hut])
  | closeT u => exact lookupTopic_close_none t u g h
  | recv u e i =>
    show lookupTopic t ((receiveMessage g u e i).1).sockets = none
    simp only [receiveMessage]
    repeat' split
    all_goals
      first
      | exact h
      | exact lookupTopic_update_none t u g.sockets _ h
      | exact lookupTopic_close_none t _ g h
  | pollT u e =>
    show lookupTopic t (pollStatusTopic g u e).sockets = none
    unfold pollStatusTopic
    cases hlk : lookupTopic u g.sockets with
    | none => exact h
    | some w => exact lookupTopic_update_none t u g.sockets _ h

theorem absent_after_ops (t : String) (ops : List Op) (g : GState)
    (h : lookupTopic t g.sockets = none)
    (hops : ∀ op ∈ ops, opensTopic op t = false) :
    lookupTopic t (ops.foldl applyOp g).sockets = none := by
  induction ops generalizing g with
  | nil => simpa using h
  | cons op rest ih =>
    rw [List.foldl_cons]
    exact ih (applyOp g op) (absent_after_op g t op h (hops op (by simp)))
      (fun o ho => hops o (by simp [ho]))

/-! ### Claim theorems -/

/-- Claim C1, counterexample: with the drain of one host tick facing the
queue `[raising callback, ok callback]`, it is not the case that the queue is
fully drained with the exception swallowed — `_tick` has no handler, so the
raising callback ends the drain, the exception escapes, and the second
callback is left in the queue uninvoked. -/
theorem drain_claim_false_c1 :
    ¬ ((tickDrain [Cb.raising 0, Cb.ok 1] ([] : List Nat)).2.1 = []
       ∧ (tickDrain [Cb.raising 0, Cb.ok 1] ([] : List Nat)).2.2 = false) := by
  decide

/-- Claim C1, amended: during a single drain, callbacks before the raising
one are popped and invoked in order, the raising callback itself has already
been popped when it raises, the exception propagates out of the drain
uncaught, and the callbacks after it remain queued, uninvoked during that
drain; a subsequent drain then invokes them. -/
theorem drain_amended_c1 (pre postv : List Nat) (i : Nat) :
    tickDrain (pre.map Cb.ok ++ Cb.raising i :: postv.map Cb.ok) ([] : List Nat)
      = (pre, postv.map Cb.ok, true)
    ∧ tickDrain (postv.map Cb.ok) ([] : List Nat) = (postv, [], false) := by
  constructor
  · have h := tickDrain_ok_append pre (Cb.raising i :: postv.map Cb.ok) ([] : List Nat)
    simpa [tickDrain] using h
  · exact tickDrain_all_ok postv

/-- Claim C2, counterexample: after N = 1 consecutive failed connect attempt
(from a fresh websocket, with jitter draw 0), the delay scheduled before
attempt 2 is 1 second, which is below the claimed lower bound
`2 ^ min 1 8 = 2`: the code computes the backoff exponent from the counter
value before it is incremented. -/
theorem backoff_claim_false_c2 :
    ¬ ((2 : Rat) ^ (min 1 8) ≤ delayAfterFails 1 (newTW "t" (failEnv 0 0)) 0 0) := by
  have hv : delayAfterFails 1 (newTW "t" (failEnv 0 0)) 0 0 = 1 := by
    rw [delayAfterFails, (reconnect_fail _ (failEnv 0 0) "connect failed" rfl).1]
    norm_num [failN, newTW, failEnv]
  rw [hv]
  norm_num

/-- Claim C2, amended: for N consecutive failed connect attempts
(1 ≤ N ≤ 8) since the last successful connection, the delay `reconnect`
schedules before attempt N+1 is at least `2 ^ (N - 1)` seconds and strictly
less than `2 ^ (N - 1) + 1` seconds, hence below the ≈128-second ceiling
(< 129 s) throughout this range; and after a successful connect the attempt
counter resets to 0, so the next failure's delay restarts from the base
interval `[1, 2)`. -/
theorem backoff_amended_c2 (N : Nat) (h1 : 1 ≤ N) (h2 : N ≤ 8) (now r : Rat)
    (h3 : 0 ≤ r) (h4 : r < 1) (w : TW) (ha : w.reconnectionAttempts = 0) :
    (2 : Rat) ^ (N - 1) ≤ delayAfterFails N w now r
    ∧ delayAfterFails N w now r < 2 ^ (N - 1) + 1
    ∧ delayAfterFails N w now r < 129
    ∧ (∀ hh (e : Env), e.connectResult = Except.ok hh →
        (reconnect (reconnect (failN (N - 1) w) (failEnv now r)).1 e).1.reconnectionAttempts = 0
        ∧ ∀ now2 r2, delayAfterFails 1
            (reconnect (reconnect (failN (N - 1) w) (failEnv now r)).1 e).1 now2 r2
            = r2 + 1) := by
  have hA : (failN (N - 1) w).reconnectionAttempts = N - 1 := by
    rw [failN_attempts (N - 1) w (by omega)]
    omega
  have hNR := (reconnect_fail (failN (N - 1) w) (failEnv now r) "connect failed" rfl).1
  have hd : delayAfterFails N w now r = r + 2 ^ (N - 1) := by
    rw [delayAfterFails, hNR]
    simp [failEnv, hA]
  refine ⟨?_, ?_, ?_, ?_⟩
  · rw [hd]
    linarith
  · rw [hd]
    linarith
  · rw [hd]
    have hle : (2 : Rat) ^ (N - 1) ≤ 2 ^ 7 :=
      pow_le_pow_right₀ (by norm_num) (by omega)
    have h128 : (2 : Rat) ^ 7 = 128 := by norm_num
    linarith
  · intro hh e hok
    have hOk := (reconnect_ok (reconnect (failN (N - 1) w) (failEnv now r)).1 e hh hok).1
    refine ⟨by rw [hOk], ?_⟩
    intro now2 r2
    rw [delayAfterFails,
      show failN (1 - 1) (reconnect (reconnect (failN (N - 1) w) (failEnv now r)).1 e).1
          = (reconnect (reconnect (failN (N - 1) w) (failEnv now r)).1 e).1 from rfl,
      (reconnect_fail _ (failEnv now2 r2) "connect failed" rfl).1, hOk]
    simp [failEnv]

/-- Claim C2, witness for the amended statement at N = 1, jitter 0, from a
fresh websocket. -/
theorem backoff_amended_c2_witness :
    (2 : Rat) ^ (1 - 1) ≤ delayAfterFails 1 (newTW "t" (failEnv 0 0)) 0 0
    ∧ delayAfterFails 1 (newTW "t" (failEnv 0 0)) 0 0 < 2 ^ (1 - 1) + 1
    ∧ delayAfterFails 1 (newTW "t" (failEnv 0 0)) 0 0 < 129
    ∧ (∀ hh (e : Env), e.connectResult = Except.ok hh →
        (reconnect (reconnect (failN (1 - 1) (newTW "t" (failEnv 0 0))) (failEnv 0 0)).1
          e).1.reconnectionAttempts = 0
        ∧ ∀ now2 r2, delayAfterFails 1
            (reconnect (reconnect (failN (1 - 1) (newTW "t" (failEnv 0 0))) (failEnv 0 0)).1
              e).1 now2 r2
            = r2 + 1) :=
  backoff_amended_c2 1 le_rfl (by norm_num) 0 0 le_rfl (by norm_num)
    (newTW "t" (failEnv 0 0)) rfl

/-- Claim C3, code bug witness: a freshly created, disconnected topic
websocket whose `next_reconnect` (= 100.5) is still in the future at poll
time 100 nevertheless gets a connect attempt from `poll_status`: the
`current_time > self.timeout` branch fires because `timeout` still holds its
class default 0.0, bypassing the scheduled backoff. -/
theorem poll_timeout_bug_c3 :
    freshTWC3.connected = false
    ∧ pollEnvC3.now < freshTWC3.nextReconnect
    ∧ (pollStatus freshTWC3 pollEnvC3).2.2 = PollAct.timedOutReconnect := by
  have h1 : ¬ (freshTWC3.connected = false ∧ freshTWC3.nextReconnect < pollEnvC3.now) := by
    norm_num [freshTWC3, newTW, pollEnvC3, TW.connected]
  have h2 : timeExceeded pollEnvC3.now freshTWC3.timeout = true := by
    norm_num [timeExceeded, freshTWC3, newTW, pollEnvC3]
  refine ⟨rfl, by norm_num [freshTWC3, newTW, pollEnvC3], ?_⟩
  unfold pollStatus
  rw [if_neg h1, if_pos h2]

/-- Claim C5: every `reconnect` call closes the held socket (if any) before
the fresh connect attempt — the event trace replayed over the previously
open handles yields exactly the resulting held handle, so at most one socket
is open at a time — and a connect failure never propagates: the failure
branch returns normally, holding no socket, with the attempt counter bumped
(capped at 8) and the next retry time scheduled. -/
theorem reconnect_safe_c5 (w : TW) (e : Env) :
    applySockEvs w.sock.toList (reconnect w e).2 = (reconnect w e).1.sock.toList
    ∧ (reconnect w e).1.sock.toList.length ≤ 1
    ∧ (∀ msg, e.connectResult = Except.error msg →
        (reconnect w e).1.sock = none
        ∧ (reconnect w e).1.reconnectionAttempts
            = (if w.reconnectionAttempts < 8 then w.reconnectionAttempts + 1
               else w.reconnectionAttempts)
        ∧ (reconnect w e).1.nextReconnect = e.now + (e.rand + 2 ^ w.reconnectionAttempts))
    ∧ (∀ h0 hh, w.sock = some h0 → e.connectResult = Except.ok hh →
        (reconnect w e).2 = [SockEv.closed h0, SockEv.opened hh]) := by
  obtain ⟨tp, sk, st, ra, nr, tmo, np⟩ := w
  cases hc : e.connectResult <;> cases sk <;>
    simp [reconnect, closeSock, TW.connected, applySockEvs, hc, List.erase_cons_head]

/-- Claim C5, witness: a connected websocket holding handle 7 whose connect
attempt fails at time 5. -/
theorem reconnect_safe_c5_witness :
    (reconnect twC5 (failEnv 5 0)).1.sock = none
    ∧ (reconnect twC5 (failEnv 5 0)).1.reconnectionAttempts
        = (if twC5.reconnectionAttempts < 8 then twC5.reconnectionAttempts + 1
           else twC5.reconnectionAttempts)
    ∧ (reconnect twC5 (failEnv 5 0)).1.nextReconnect
        = (failEnv 5 0).now + ((failEnv 5 0).rand + 2 ^ twC5.reconnectionAttempts) :=
  (reconnect_safe_c5 twC5 (failEnv 5 0)).2.2.1 "connect failed" rfl

/-- Claim C6: a frame that was successfully read but fails JSON decoding is
logged and dropped with the connection left untouched: the module state
(registry, websocket fields, timers, dispatch queue) is returned unchanged,
no socket event occurs, and the invalid-JSON return point is taken, so no
reconnect happens and nothing is dispatched. -/
theorem invalid_json_drop_c6 (g : GState) (t : String) (w : TW) (e : Env)
    (hw : lookupTopic t g.sockets = some w) :
    receiveMessage g t e (RecvInput.frame none) = (g, [], RecvOutcome.invalidJSON) := by
  unfold receiveMessage
  rw [hw]

/-- Claim C6, witness: the registered topic `a` receiving an undecodable
frame at time 5. -/
theorem invalid_json_drop_c6_witness :
    receiveMessage gsA "a" (failEnv 5 0) (RecvInput.frame none)
      = (gsA, [], RecvOutcome.invalidJSON) :=
  invalid_json_drop_c6 gsA "a" (newTW "a" (failEnv 0 0)) (failEnv 5 0) rfl

/-- Claim C4: on receiving a LISTEN RESPONSE carrying `ERR_BADAUTH`, the
websocket for the topic is shut down (its socket closed) and removed from the
registry, and it stays absent under any further sequence of registry
operations that contains no explicit `OpenTopic` for that topic. -/
theorem badauth_permanent_c4 (g : GState) (t : String) (w : TW) (e : Env) (ops : List Op)
    (hw : lookupTopic t g.sockets = some w) (ht : w.topic = t)
    (hops : ∀ op ∈ ops, opensTopic op t = false) :
    (CloseTopic g t).2 = some ({ w with sock := none })
    ∧ lookupTopic t ((receiveMessage g t e (RecvInput.frame (some badauthMsg))).1).sockets
        = none
    ∧ lookupTopic t ((ops.foldl applyOp
        (receiveMessage g t e (RecvInput.frame (some badauthMsg))).1).sockets) = none := by
  have hclose2 : (CloseTopic g t).2 = some ({ w with sock := none }) := by
    unfold CloseTopic
    rw [hw]
  have habs : lookupTopic t ((CloseTopic g t).1).sockets = none := by
    unfold CloseTopic
    rw [hw]
    exact lookupTopic_erase_self t g.sockets
  have hstep : (receiveMessage g t e (RecvInput.frame (some badauthMsg))).1
      = (CloseTopic g w.topic).1 := by
    unfold receiveMessage badauthMsg
    rw [hw]
    rfl
  rw [ht] at hstep
  exact ⟨hclose2, by rw [hstep]; exact habs,
    by rw [hstep]; exact absent_after_ops t ops _ habs hops⟩

/-- Claim C4, witness: topic `a` receives the auth-rejection RESPONSE, then a
close of `b` and an open of `c` are performed; `a` stays unregistered. -/
theorem badauth_permanent_c4_witness :
    (CloseTopic gsA "a").2 = some ({ newTW "a" (failEnv 0 0) with sock := none })
    ∧ lookupTopic "a" ((receiveMessage gsA "a" (failEnv 5 0)
        (RecvInput.frame (some badauthMsg))).1).sockets = none
    ∧ lookupTopic "a" (([Op.closeT "b", Op.openT "c" (failEnv 0 0)].foldl applyOp
        (receiveMessage gsA "a" (failEnv 5 0) (RecvInput.frame (some badauthMsg))).1).sockets)
      = none :=
  badauth_permanent_c4 gsA "a" (newTW "a" (failEnv 0 0)) (failEnv 5 0)
    [Op.closeT "b", Op.openT "c" (failEnv 0 0)] rfl rfl (by decide)

/-- The dispatch of one router-bound frame: the state is unchanged except
that one `(topic, data)` callback is appended to the main-thread queue. -/
theorem recv_dispatch (g : GState) (t : String) (w : TW) (e : Env) (d : String)
    (hw : lookupTopic t g.sockets = some w) :
    (receiveMessage g t e (msgFrame d)).1 = { g with queue := g.queue ++ [(w.topic, d)] } := by
  unfold receiveMessage msgFrame
  rw [hw]
  rfl

/-- Claim C7: three router-bound frames received in wire order F1, F2, F3 are
appended to the main-thread dispatch queue in that order, and the drain pops
and invokes the queue in strict FIFO enqueue order, so the subscriber
callbacks run in the order F1, F2, F3. -/
theorem fifo_delivery_c7 (g : GState) (t : String) (w : TW) (e1 e2 e3 : Env)
    (d1 d2 d3 : String) (hw : lookupTopic t g.sockets = some w) :
    ((receiveMessage (receiveMessage (receiveMessage g t e1 (msgFrame d1)).1 t e2
        (msgFrame d2)).1 t e3 (msgFrame d3)).1).queue
      = g.queue ++ [(w.topic, d1), (w.topic, d2), (w.topic, d3)]
    ∧ tickDrain ((g.queue ++ [(w.topic, d1), (w.topic, d2), (w.topic, d3)]).map Cb.ok)
        ([] : List (String × String))
      = (g.queue ++ [(w.topic, d1), (w.topic, d2), (w.topic, d3)], [], false) := by
  have h1 := recv_dispatch g t w e1 d1 hw
  have hw1 : lookupTopic t ((receiveMessage g t e1 (msgFrame d1)).1).sockets = some w := by
    rw [h1]
    exact hw
  have h2 := recv_dispatch _ t w e2 d2 hw1
  have hw2 : lookupTopic t ((receiveMessage (receiveMessage g t e1 (msgFrame d1)).1 t e2
      (msgFrame d2)).1).sockets = some w := by
    rw [h2, h1]
    exact hw
  have h3 := recv_dispatch _ t w e3 d3 hw2
  constructor
  · rw [h3, h2, h1]
    simp
  · exact tickDrain_all_ok _

/-- Claim C7, witness: topic `a` receiving payloads d1, d2, d3 in order. -/
theorem fifo_delivery_c7_witness :
    ((receiveMessage (receiveMessage (receiveMessage gsA "a" (failEnv 1 0) (msgFrame "d1")).1
        "a" (failEnv 2 0) (msgFrame "d2")).1 "a" (failEnv 3 0) (msgFrame "d3")).1).queue
      = gsA.queue ++ [("a", "d1"), ("a", "d2"), ("a", "d3")]
    ∧ tickDrain ((gsA.queue ++ [("a", "d1"), ("a", "d2"), ("a", "d3")]).map Cb.ok)
        ([] : List (String × String))
      = (gsA.queue ++ [("a", "d1"), ("a", "d2"), ("a", "d3")], [], false) :=
  fifo_delivery_c7 gsA "a" (newTW "a" (failEnv 0 0)) (failEnv 1 0) (failEnv 2 0)
    (failEnv 3 0) "d1" "d2" "d3" rfl

/-- Claim C8: `OpenTopic` on an already-registered topic is a no-op leaving
exactly one registry entry for it, and `CloseTopic` on an unregistered topic
is a no-op leaving the registry mapping unchanged. -/
theorem registry_noop_c8 (g : GState) (t u : String) (e : Env) :
    (∀ w, (g.sockets.map Prod.fst).Nodup → lookupTopic t g.sockets = some w →
        OpenTopic g t e = g ∧ countKey t (OpenTopic g t e).sockets = 1)
    ∧ (lookupTopic u g.sockets = none → (CloseTopic g u).1 = g) := by
  constructor
  · intro w hnd ht
    have hopen : OpenTopic g t e = g := by
      unfold OpenTopic
      cases g.token with
      | none => rfl
      | some tok => rw [if_pos (by rw [ht]; rfl)]
    refine ⟨hopen, ?_⟩
    rw [hopen]
    exact countKey_eq_one t g.sockets w hnd ht
  · intro hu
    unfold CloseTopic
    rw [hu]

/-- Claim C8, witness: re-opening the registered topic `a` leaves the
one-topic state unchanged with exactly one entry for `a`, and closing `a`
on the empty registry — when nothing at all is open — is a no-op. -/
theorem registry_noop_c8_witness :
    (OpenTopic gsA "a" (failEnv 0 0) = gsA
     ∧ countKey "a" (OpenTopic gsA "a" (failEnv 0 0)).sockets = 1)
    ∧ (CloseTopic emptyGS "a").1 = emptyGS :=
  ⟨(registry_noop_c8 gsA "a" "b" (failEnv 0 0)).1 (newTW "a" (failEnv 0 0))
      (by decide) rfl,
   (registry_noop_c8 emptyGS "x" "a" (failEnv 0 0)).2 rfl⟩

/-- Claim C9: the poll thread runs iff the registry mapping is non-empty:
the invariant is preserved by every completed `OpenTopic` (started exactly
when the mapping reaches size 1) and `CloseTopic` (joined and cleared exactly
when the mapping empties), and the poll loop returns as soon as the mapping
is empty. -/
theorem thread_inv_c9 (g : GState) (t : String) (e : Env) (fuel : Nat)
    (inps : Nat → PollInp) (hinv : threadInv g) :
    threadInv (OpenTopic g t e)
    ∧ threadInv (CloseTopic g t).1
    ∧ (g.sockets = [] → pollWebsockets fuel inps g = g) := by
  refine ⟨?_, ?_, ?_⟩
  · unfold OpenTopic
    cases htok : g.token with
    | none => exact hinv
    | some tok =>
      by_cases hex : (lookupTopic t g.sockets).isSome
      · rw [if_pos hex]
        exact hinv
      · rw [if_neg hex]
        simp only [threadInv]
        by_cases hlen : (g.sockets ++ [(t, newTW t e)]).length = 1
        · have h0 : g.sockets = [] := by
            cases hs : g.sockets with
            | nil => rfl
            | cons p rest =>
              rw [hs] at hlen
              simp [List.length_append] at hlen
          rw [h0]
          simp
        · have hne : g.sockets ≠ [] := fun h0 => hlen (by rw [h0]; simp)
          simp [hne, hinv.mpr hne]
  · unfold CloseTopic
    cases hlk : lookupTopic t g.sockets with
    | none => exact hinv
    | some w =>
      simp only [threadInv]
      by_cases hlen : (eraseTopic g.sockets t).length = 0
      · simp [hlen, List.length_eq_zero.mp hlen]
      · have hne2 : eraseTopic g.sockets t ≠ [] := by
          intro h0
          rw [h0] at hlen
          simp at hlen
        have hgne : g.sockets ≠ [] := by
          intro h0
          rw [h0] at hlk
          simp [lookupTopic] at hlk
        simp [hlen, hne2]
        exact hinv.mpr hgne
  · intro hempty
    cases fuel with
    | zero => rfl
    | succ n =>
      unfold pollWebsockets
      rw [hempty]
      simp

/-- Claim C9, witness: the empty, thread-less state satisfies the invariant,
and opening or closing preserves it; the loop exits immediately. -/
theorem thread_inv_c9_witness :
    threadInv (OpenTopic emptyGS "a" (failEnv 0 0))
    ∧ threadInv (CloseTopic emptyGS "a").1
    ∧ (emptyGS.sockets = [] → pollWebsockets 0 (fun _ => inp0) emptyGS = emptyGS) :=
  thread_inv_c9 emptyGS "a" (failEnv 0 0) 0 (fun _ => inp0) (by simp [threadInv, emptyGS])

/-- Claim C10: with no authorization token present, `OpenTopic` returns with
the module state unchanged — no websocket is created, the registry mapping
is untouched, and the polling thread is not started, whatever the topic. -/
theorem no_token_noop_c10 (g : GState) (t : String) (e : Env) (h : g.token = none) :
    OpenTopic g t e = g := by
  unfold OpenTopic
  rw [h]

/-- Claim C10, witness: opening any topic on the token-less empty state. -/
theorem no_token_noop_c10_witness :
    OpenTopic emptyGS "channel-points-channel-v1" (failEnv 0 0) = emptyGS :=
  no_token_noop_c10 emptyGS "channel-points-channel-v1" (failEnv 0 0) rfl

end PubSub
